import Mathlib

/-!
Shallow embedding of the audiobook-generator single-page client
(`src/App.jsx`).  The component keeps local view-state (React `useState`
hooks), issues HTTP requests through a single axios instance whose request
interceptor injects the stored bearer token, and reacts to user events via
seven handlers: `fetchLangs`, `fetchHistory`, `handleLogin`, `uploadFile`,
`askQuestion`, `generateAudio`, `handleLogout`.

Modelling decisions:
* `localStorage` holds at most the one key `auth_token`; it is modelled as
  the `storedToken : Option String` field of the client state.
* Each handler is a pure function from the current state and the outcome the server gives for the request(s) it performs to the new state and the list of
  observable effects (network requests sent, `alert` popups,
  `console.error` logs).  Each network request is recorded after the axios
  interceptor has run on it.
* JavaScript truthiness on strings (`if (!username)`, `if (token)`) is the
  test against the empty string; absent object fields
  (`res.data.langs`, `res.data.qa_pairs`, `res.data.token`) are `Option`s,
  and `x || d` on a possibly-absent field is `Option.getD`.
* `window.URL.createObjectURL` returns a fresh object URL each call; this
  is modelled by a `nextUrl : Nat` allocator in the state, so distinct
  calls yield distinct references.
-/

/-- HTTP methods used by the client. -/
inductive Method where
  | get
  | post
deriving Repr, DecidableEq

/-- An axios request configuration: method, path, a key/value view of the
body (form data or JSON fields), and the `Authorization` header value, if
any. -/
structure RequestConfig where
  method : Method
  path : String
  body : List (String × String)
  authorization : Option String
deriving Repr, DecidableEq

/-- Observable effects of a handler: an HTTP request actually sent (after
the interceptor ran), an `alert(...)` popup, or a `console.error(...)`
log line. -/
inductive Effect where
  | request (r : RequestConfig)
  | alert (msg : String)
  | consoleError (msg : String)
deriving Repr, DecidableEq

/-- Outcome of an awaited axios call: `ok data` for a 2xx response with
parsed body `data`, `err` for a thrown error (non-2xx status or network
failure). -/
inductive Outcome (α : Type) where
  | ok (data : α)
  | err
deriving Repr, DecidableEq

/-- Body of a 2xx `/api/langs` response: the `langs` field, an optional
code-to-name mapping (absent field = `none`). -/
abbrev LangsBody := Option (List (String × String))

/-- Body of a 2xx `/api/qa-history` response: the `qa_pairs` field, an
optional ordered list of (question, answer) pairs (absent field =
`none`). -/
abbrev HistoryBody := Option (List (String × String))

/-- Body of a 2xx `/api/login` response: the `token` field, absent or a
string. -/
abbrev LoginBody := Option String

/-- The component state: the `useState` hooks of `App` plus the
`auth_token` entry of `localStorage` and the object-URL allocator. -/
structure ClientState where
  storedToken : Option String
  file : Option String
  filename : Option String
  question : String
  answer : String
  qaHistory : List (String × String)
  langs : List (String × String)
  selectedLang : String
  audioUrl : Option Nat
  nextUrl : Nat
  showLogin : Bool
  isLoggedIn : Bool
  username : String
  password : String
deriving Repr, DecidableEq

/-- The initial state of the component: `useState` initial values, an
empty `localStorage`. -/
def initialState : ClientState where
  storedToken := none
  file := none
  filename := none
  question := ""
  answer := ""
  qaHistory := []
  langs := []
  selectedLang := "en"
  audioUrl := none
  nextUrl := 0
  showLogin := true
  isLoggedIn := false
  username := ""
  password := ""

/-- The axios request interceptor:
`const token = localStorage.getItem("auth_token");
 if (token) { config.headers.Authorization = `Bearer ${token}`; }`.
A `null` (absent) or empty-string token is falsy and leaves the config
untouched. -/
def interceptRequest (stored : Option String) (config : RequestConfig) :
    RequestConfig :=
  match stored with
  | some t => if t = "" then config
              else { config with authorization := some ("Bearer " ++ t) }
  | none => config

/-- Request built by `axios.get("/api/langs")` before interception. -/
def langsRequest : RequestConfig :=
  { method := .get, path := "/api/langs", body := [], authorization := none }

/-- Request built by `axios.get("/api/qa-history")` before interception. -/
def historyRequest : RequestConfig :=
  { method := .get, path := "/api/qa-history", body := [],
    authorization := none }

/-- Request built by `axios.post("/api/login", { username, password })`
before interception. -/
def loginRequest (u p : String) : RequestConfig :=
  { method := .post, path := "/api/login",
    body := [("username", u), ("password", p)], authorization := none }

/-- Request built by `axios.post("/api/upload", fd)` before interception;
the form data carries the selected file under the key `file`. -/
def uploadRequest (fname : String) : RequestConfig :=
  { method := .post, path := "/api/upload", body := [("file", fname)],
    authorization := none }

/-- Request built by `axios.post("/api/answer", { question })` before
interception. -/
def answerRequest (q : String) : RequestConfig :=
  { method := .post, path := "/api/answer", body := [("question", q)],
    authorization := none }

/-- Request built by
`axios.post("/api/audiobook", { lang_code: selectedLang }, { responseType: "blob" })`
before interception. -/
def audiobookRequest (lang : String) : RequestConfig :=
  { method := .post, path := "/api/audiobook",
    body := [("lang_code", lang)], authorization := none }

/-- Handler `fetchLangs`: GET `/api/langs`; on success stores
`res.data.langs || {}`; on failure only logs. -/
def fetchLangs (s : ClientState) (resp : Outcome LangsBody) :
    ClientState × List Effect :=
  let req := interceptRequest s.storedToken langsRequest
  match resp with
  | .ok body => ({ s with langs := body.getD [] }, [.request req])
  | .err => (s, [.request req, .consoleError "Error fetching langs:"])

/-- Handler `fetchHistory`: GET `/api/qa-history`; on success stores
`res.data.qa_pairs || []`; on failure only logs. -/
def fetchHistory (s : ClientState) (resp : Outcome HistoryBody) :
    ClientState × List Effect :=
  let req := interceptRequest s.storedToken historyRequest
  match resp with
  | .ok body => ({ s with qaHistory := body.getD [] }, [.request req])
  | .err => (s, [.request req, .consoleError "Error fetching history:"])

/-- Handler `handleLogin`: validates that username and password are non-empty
(otherwise alerts and returns without any request), POSTs the credentials,
and on a truthy `token` in the response persists it, flips
`isLoggedIn`/`showLogin` and invokes `fetchLangs` and `fetchHistory`
directly; a falsy/absent token alerts "Invalid credentials"; a thrown
error alerts "Login failed. Check your credentials." and logs. -/
def handleLogin (s : ClientState) (loginResp : Outcome LoginBody)
    (langsResp : Outcome LangsBody) (histResp : Outcome HistoryBody) :
    ClientState × List Effect :=
  if s.username = "" ∨ s.password = "" then
    (s, [.alert "Please enter username & password"])
  else
    let req := interceptRequest s.storedToken
      (loginRequest s.username s.password)
    match loginResp with
    | .ok body =>
      match body with
      | some token =>
        if token = "" then
          (s, [.request req, .alert "Invalid credentials"])
        else
          let s1 := { s with storedToken := some token, isLoggedIn := true,
                             showLogin := false }
          let r2 := fetchLangs s1 langsResp
          let r3 := fetchHistory r2.1 histResp
          (r3.1, [.request req] ++ r2.2 ++ r3.2)
      | none => (s, [.request req, .alert "Invalid credentials"])
    | .err =>
      (s, [.request req, .alert "Login failed. Check your credentials.",
           .consoleError "login error"])

/-- Handler `uploadFile`: alerts and returns if no file is selected; otherwise
POSTs the file, and on success records the filename, invokes
`fetchHistory`, and alerts success; on failure logs and alerts. -/
def uploadFile (s : ClientState) (resp : Outcome Unit)
    (histResp : Outcome HistoryBody) : ClientState × List Effect :=
  match s.file with
  | none => (s, [.alert "Pick a file first!"])
  | some f =>
    let req := interceptRequest s.storedToken (uploadRequest f)
    match resp with
    | .ok _ =>
      let s1 := { s with filename := some f }
      let r2 := fetchHistory s1 histResp
      (r2.1, [.request req] ++ r2.2 ++ [.alert "✅ File uploaded successfully!"])
    | .err =>
      (s, [.request req, .consoleError "Upload failed:",
           .alert "Upload failed — check backend logs."])

/-- Handler `askQuestion`: alerts and returns if the question is empty; otherwise
POSTs the question, and on success stores the answer and invokes
`fetchHistory`; on failure logs and alerts. -/
def askQuestion (s : ClientState) (resp : Outcome String)
    (histResp : Outcome HistoryBody) : ClientState × List Effect :=
  if s.question = "" then
    (s, [.alert "Enter a question"])
  else
    let req := interceptRequest s.storedToken (answerRequest s.question)
    match resp with
    | .ok ans =>
      let s1 := { s with answer := ans }
      let r2 := fetchHistory s1 histResp
      (r2.1, [.request req] ++ r2.2)
    | .err =>
      (s, [.request req, .consoleError "Ask failed:",
           .alert "Failed to get answer"])

/-- Handler `generateAudio`: POSTs the selected language code with no validation;
on success wraps the blob in a fresh object URL, stores it in `audioUrl`
and alerts success; on failure logs and alerts. -/
def generateAudio (s : ClientState) (resp : Outcome Unit) :
    ClientState × List Effect :=
  let req := interceptRequest s.storedToken (audiobookRequest s.selectedLang)
  match resp with
  | .ok _ =>
    ({ s with audioUrl := some s.nextUrl, nextUrl := s.nextUrl + 1 },
     [.request req, .alert "🎧 Audio generated successfully!"])
  | .err =>
    (s, [.request req, .consoleError "Audio generation failed:",
         .alert "Audio generation failed — check backend logs."])

/-- Handler `handleLogout`: removes `auth_token` from `localStorage`, flips
`isLoggedIn`/`showLogin`, clears the history, audio URL and answer.
Purely local: no request, no alert, no log. -/
def handleLogout (s : ClientState) : ClientState × List Effect :=
  ({ s with storedToken := none, isLoggedIn := false, showLogin := true,
            qaHistory := [], audioUrl := none, answer := "" }, [])

/-- The `useEffect(..., [isLoggedIn])` body: when it fires (the
`isLoggedIn` dependency changed), it invokes `fetchLangs` and
`fetchHistory` if `isLoggedIn` is now true. -/
def loggedInEffect (s : ClientState) (langsResp : Outcome LangsBody)
    (histResp : Outcome HistoryBody) : ClientState × List Effect :=
  if s.isLoggedIn then
    let r1 := fetchLangs s langsResp
    let r2 := fetchHistory r1.1 histResp
    (r2.1, r1.2 ++ r2.2)
  else (s, [])

/-- A full login event as React executes it: the `handleLogin` handler
runs, and the `useEffect` with dependency list `[isLoggedIn]` re-fires
afterwards exactly when the `isLoggedIn` value changed, issuing a second
round of `fetchLangs`/`fetchHistory`. -/
def loginFlow (s : ClientState) (loginResp : Outcome LoginBody)
    (langsResp : Outcome LangsBody) (histResp : Outcome HistoryBody)
    (langsResp2 : Outcome LangsBody) (histResp2 : Outcome HistoryBody) :
    ClientState × List Effect :=
  let r1 := handleLogin s loginResp langsResp histResp
  if r1.1.isLoggedIn = s.isLoggedIn then r1
  else
    let r2 := loggedInEffect r1.1 langsResp2 histResp2
    (r2.1, r1.2 ++ r2.2)

/-- The rendered audio element: `{audioUrl && <audio controls src={audioUrl} />}` —
a playback control bound to `audioUrl` when it is set, nothing
otherwise. -/
def renderedAudioControl (s : ClientState) : Option Nat :=
  match s.audioUrl with
  | some url => some url
  | none => none

/-- The network requests among a list of effects. -/
def requestsOf (effs : List Effect) : List RequestConfig :=
  effs.filterMap fun e =>
    match e with
    | .request r => some r
    | _ => none

/-- Does an effect send a request to `/api/langs`? -/
def isLangsRequest (e : Effect) : Bool :=
  match e with
  | .request r => r.path = "/api/langs"
  | _ => false

/-- How many `/api/langs` requests a list of effects contains. -/
def langsRequestCount (effs : List Effect) : Nat :=
  (effs.filter isLangsRequest).length

/-- One user-triggered event of the client, bundled with the server
outcomes its handler consumes. -/
inductive ClientAction where
  | loginAct (loginResp : Outcome LoginBody) (langsResp : Outcome LangsBody)
      (histResp : Outcome HistoryBody)
  | logoutAct
  | uploadAct (resp : Outcome Unit) (histResp : Outcome HistoryBody)
  | askAct (resp : Outcome String) (histResp : Outcome HistoryBody)
  | audioAct (resp : Outcome Unit)
  | langsAct (resp : Outcome LangsBody)
  | historyAct (resp : Outcome HistoryBody)

/-- Whether an action is the login event (the only handler that writes the
stored token while also issuing requests). -/
def ClientAction.isLoginAct : ClientAction → Bool
  | .loginAct _ _ _ => true
  | _ => false

/-- Dispatch an action to its handler. -/
def step (s : ClientState) : ClientAction → ClientState × List Effect
  | .loginAct lr gr hr => handleLogin s lr gr hr
  | .logoutAct => handleLogout s
  | .uploadAct r hr => uploadFile s r hr
  | .askAct r hr => askQuestion s r hr
  | .audioAct r => generateAudio s r
  | .langsAct r => fetchLangs s r
  | .historyAct r => fetchHistory s r

/-- The `Authorization` header the interceptor attaches when the stored
token is `stored`. -/
def authOf (stored : Option String) : Option String :=
  match stored with
  | some t => if t = "" then none else some ("Bearer " ++ t)
  | none => none

/-- A concrete logged-in state: token `abc` persisted, some session data
present. -/
def sLoggedIn : ClientState :=
  { initialState with
    storedToken := some "abc", isLoggedIn := true, showLogin := false,
    qaHistory := [("q1", "a1")], answer := "old answer",
    audioUrl := some 0, nextUrl := 1 }

/-- A concrete logged-in state with a pending question typed in. -/
def sAsk : ClientState :=
  { sLoggedIn with question := "What is this document about?" }

/-- A concrete logged-in state whose selected language code is the empty
string. -/
def sNoLang : ClientState :=
  { initialState with
    storedToken := some "abc", isLoggedIn := true, showLogin := false,
    selectedLang := "" }

/-- A concrete logged-out state with credentials typed into the login
form. -/
def sCreds : ClientState :=
  { initialState with username := "admin", password := "1234" }

/-- A concrete logged-out state with credentials typed in and a stale
token still in durable storage from an earlier session. -/
def sStale : ClientState :=
  { initialState with
    username := "admin", password := "1234", storedToken := some "old" }

@[simp] theorem requestsOf_nil : requestsOf [] = [] := rfl

@[simp] theorem requestsOf_cons_request (r : RequestConfig) (effs : List Effect) :
    requestsOf (Effect.request r :: effs) = r :: requestsOf effs := rfl

@[simp] theorem requestsOf_cons_alert (m : String) (effs : List Effect) :
    requestsOf (Effect.alert m :: effs) = requestsOf effs := rfl

@[simp] theorem requestsOf_cons_consoleError (m : String) (effs : List Effect) :
    requestsOf (Effect.consoleError m :: effs) = requestsOf effs := rfl

@[simp] theorem requestsOf_append (e1 e2 : List Effect) :
    requestsOf (e1 ++ e2) = requestsOf e1 ++ requestsOf e2 := by
  simp [requestsOf, List.filterMap_append]

@[simp] theorem interceptRequest_path (stored : Option String)
    (c : RequestConfig) : (interceptRequest stored c).path = c.path := by
  cases stored with
  | none => rfl
  | some t => by_cases ht : t = "" <;> simp [interceptRequest, ht]

@[simp] theorem interceptRequest_method (stored : Option String)
    (c : RequestConfig) : (interceptRequest stored c).method = c.method := by
  cases stored with
  | none => rfl
  | some t => by_cases ht : t = "" <;> simp [interceptRequest, ht]

@[simp] theorem interceptRequest_body (stored : Option String)
    (c : RequestConfig) : (interceptRequest stored c).body = c.body := by
  cases stored with
  | none => rfl
  | some t => by_cases ht : t = "" <;> simp [interceptRequest, ht]

theorem interceptRequest_auth (stored : Option String) (c : RequestConfig)
    (hc : c.authorization = none) :
    (interceptRequest stored c).authorization = authOf stored := by
  cases stored with
  | none => simp [interceptRequest, authOf, hc]
  | some t => by_cases ht : t = "" <;> simp [interceptRequest, authOf, ht, hc]

@[simp] theorem fetchLangs_storedToken (s : ClientState)
    (resp : Outcome LangsBody) :
    (fetchLangs s resp).1.storedToken = s.storedToken := by
  cases resp <;> simp [fetchLangs]

@[simp] theorem fetchHistory_storedToken (s : ClientState)
    (resp : Outcome HistoryBody) :
    (fetchHistory s resp).1.storedToken = s.storedToken := by
  cases resp <;> simp [fetchHistory]

@[simp] theorem fetchLangs_isLoggedIn (s : ClientState)
    (resp : Outcome LangsBody) :
    (fetchLangs s resp).1.isLoggedIn = s.isLoggedIn := by
  cases resp <;> simp [fetchLangs]

@[simp] theorem fetchHistory_isLoggedIn (s : ClientState)
    (resp : Outcome HistoryBody) :
    (fetchHistory s resp).1.isLoggedIn = s.isLoggedIn := by
  cases resp <;> simp [fetchHistory]

theorem fetchLangs_auth (s : ClientState) (resp : Outcome LangsBody) :
    ∀ r ∈ requestsOf (fetchLangs s resp).2,
      r.authorization = authOf s.storedToken := by
  cases resp <;> intro r hr <;> simp [fetchLangs] at hr <;> subst hr <;>
    exact interceptRequest_auth _ _ rfl

theorem fetchHistory_auth (s : ClientState) (resp : Outcome HistoryBody) :
    ∀ r ∈ requestsOf (fetchHistory s resp).2,
      r.authorization = authOf s.storedToken := by
  cases resp <;> intro r hr <;> simp [fetchHistory] at hr <;> subst hr <;>
    exact interceptRequest_auth _ _ rfl

theorem uploadFile_auth (s : ClientState) (resp : Outcome Unit)
    (histResp : Outcome HistoryBody) :
    ∀ r ∈ requestsOf (uploadFile s resp histResp).2,
      r.authorization = authOf s.storedToken := by
  intro r hr
  match hf : s.file with
  | none => simp [uploadFile, hf] at hr
  | some f =>
    cases resp with
    | ok u =>
      simp [uploadFile, hf] at hr
      rcases hr with hr | hr
      · subst hr; exact interceptRequest_auth _ _ rfl
      · have h2 := fetchHistory_auth _ histResp r hr
        simpa using h2
    | err =>
      simp [uploadFile, hf] at hr
      subst hr; exact interceptRequest_auth _ _ rfl

theorem askQuestion_auth (s : ClientState) (resp : Outcome String)
    (histResp : Outcome HistoryBody) :
    ∀ r ∈ requestsOf (askQuestion s resp histResp).2,
      r.authorization = authOf s.storedToken := by
  intro r hr
  by_cases hq : s.question = ""
  · simp [askQuestion, hq] at hr
  · cases resp with
    | ok ans =>
      simp [askQuestion, hq] at hr
      rcases hr with hr | hr
      · subst hr; exact interceptRequest_auth _ _ rfl
      · have h2 := fetchHistory_auth _ histResp r hr
        simpa using h2
    | err =>
      simp [askQuestion, hq] at hr
      subst hr; exact interceptRequest_auth _ _ rfl

theorem generateAudio_auth (s : ClientState) (resp : Outcome Unit) :
    ∀ r ∈ requestsOf (generateAudio s resp).2,
      r.authorization = authOf s.storedToken := by
  cases resp <;> intro r hr <;> simp [generateAudio] at hr <;> subst hr <;>
    exact interceptRequest_auth _ _ rfl

/-- C3: a successful `fetchHistory` response whose body carries the list
`qa` under `qa_pairs` replaces the in-memory Q&A history wholesale with
exactly `qa`, in the same order, regardless of the previously held
list. -/
theorem c3_fetchHistory_wholesale_replacement (s : ClientState)
    (qa : List (String × String)) :
    (fetchHistory s (Outcome.ok (some qa))).1.qaHistory = qa := by
  simp [fetchHistory]

/-- C4: from any logged-in state, `handleLogout` removes the persisted
token, clears the Q&A history, the pending answer and the audio
reference, flips the UI to the unauthenticated state showing the login
prompt, and produces no effect at all (in particular no network
request). -/
theorem c4_logout_clears_session (s : ClientState)
    (_h : s.isLoggedIn = true) :
    (handleLogout s).1.storedToken = none ∧
    (handleLogout s).1.qaHistory = [] ∧
    (handleLogout s).1.answer = "" ∧
    (handleLogout s).1.audioUrl = none ∧
    (handleLogout s).1.isLoggedIn = false ∧
    (handleLogout s).1.showLogin = true ∧
    (handleLogout s).2 = [] := by
  simp [handleLogout]

/-- Witness for C4 at the concrete state `sLoggedIn`. -/
theorem c4_logout_clears_session_witness :
    sLoggedIn.isLoggedIn = true ∧ (handleLogout sLoggedIn).1.storedToken = none ∧
      (handleLogout sLoggedIn).2 = [] := by
  have h := c4_logout_clears_session sLoggedIn rfl
  exact ⟨rfl, h.1, h.2.2.2.2.2.2⟩

/-- C5: when the question is non-empty and the `/api/answer` request
fails, `askQuestion` leaves the whole state (in particular the displayed
answer and the Q&A history) unchanged and surfaces an alert. -/
theorem c5_ask_failure_preserves_state (s : ClientState)
    (histResp : Outcome HistoryBody) (hq : s.question ≠ "") :
    (askQuestion s Outcome.err histResp).1 = s ∧
    (askQuestion s Outcome.err histResp).1.answer = s.answer ∧
    (askQuestion s Outcome.err histResp).1.qaHistory = s.qaHistory ∧
    Effect.alert "Failed to get answer" ∈ (askQuestion s Outcome.err histResp).2 := by
  simp [askQuestion, hq]

/-- Witness for C5 at the concrete state `sAsk`. -/
theorem c5_ask_failure_preserves_state_witness :
    (askQuestion sAsk Outcome.err Outcome.err).1 = sAsk ∧
    Effect.alert "Failed to get answer" ∈ (askQuestion sAsk Outcome.err Outcome.err).2 := by
  have h := c5_ask_failure_preserves_state sAsk Outcome.err (by decide)
  exact ⟨h.1, h.2.2.2⟩

/-- C6: two successive successful `generateAudio` calls leave exactly one
playable reference in state: the second, fresh one; the first reference
is different from it and is no longer what the rendered audio control is
bound to. -/
theorem c6_second_audio_supersedes_first (s : ClientState) :
    (generateAudio s (Outcome.ok ())).1.audioUrl = some s.nextUrl ∧
    (generateAudio (generateAudio s (Outcome.ok ())).1 (Outcome.ok ())).1.audioUrl
        = some (s.nextUrl + 1) ∧
    some (s.nextUrl + 1) ≠ some s.nextUrl ∧
    renderedAudioControl
        (generateAudio (generateAudio s (Outcome.ok ())).1 (Outcome.ok ())).1
      = some (s.nextUrl + 1) := by
  refine ⟨by simp [generateAudio], by simp [generateAudio], by simp, ?_⟩
  simp [generateAudio, renderedAudioControl]

/-- C8: when the `/api/langs` or `/api/qa-history` request fails, the
loader leaves the whole state unchanged, logs the failure, and shows no
alert to the user. -/
theorem c8_loader_failures_silent (s : ClientState) :
    (fetchLangs s Outcome.err).1 = s ∧
    Effect.consoleError "Error fetching langs:" ∈ (fetchLangs s Outcome.err).2 ∧
    (∀ m, Effect.alert m ∉ (fetchLangs s Outcome.err).2) ∧
    (fetchHistory s Outcome.err).1 = s ∧
    Effect.consoleError "Error fetching history:" ∈ (fetchHistory s Outcome.err).2 ∧
    (∀ m, Effect.alert m ∉ (fetchHistory s Outcome.err).2) := by
  simp [fetchLangs, fetchHistory]

/-- C9: a 2xx loader response whose body lacks the expected field
(`langs`, respectively `qa_pairs`) neither errors nor keeps the old value:
the language catalog becomes the empty mapping, the history becomes the
empty list, and no alert or log is produced. -/
theorem c9_missing_field_resets_to_empty (s : ClientState) :
    (fetchLangs s (Outcome.ok none)).1.langs = [] ∧
    (fetchHistory s (Outcome.ok none)).1.qaHistory = [] ∧
    (∀ m, Effect.alert m ∉ (fetchLangs s (Outcome.ok none)).2) ∧
    (∀ m, Effect.consoleError m ∉ (fetchLangs s (Outcome.ok none)).2) ∧
    (∀ m, Effect.alert m ∉ (fetchHistory s (Outcome.ok none)).2) ∧
    (∀ m, Effect.consoleError m ∉ (fetchHistory s (Outcome.ok none)).2) := by
  simp [fetchLangs, fetchHistory]

/-- C1: for any client event other than the login handler itself, every
request it issues carries `Authorization: Bearer t` when the durable
storage holds the (non-empty) token `t`, and no `Authorization` header at
all when storage holds no token; moreover a successful login persists
exactly the token of the response, and logout removes the persisted
token. -/
theorem c1_requests_carry_stored_bearer (s : ClientState) (a : ClientAction)
    (ha : a.isLoginAct = false) :
    (∀ t, s.storedToken = some t → t ≠ "" →
        ∀ r ∈ requestsOf (step s a).2,
          r.authorization = some ("Bearer " ++ t)) ∧
    (s.storedToken = none →
        ∀ r ∈ requestsOf (step s a).2, r.authorization = none) ∧
    (∀ gr hr tok, tok ≠ "" → s.username ≠ "" → s.password ≠ "" →
        (handleLogin s (Outcome.ok (some tok)) gr hr).1.storedToken
          = some tok) ∧
    (handleLogout s).1.storedToken = none := by
  have hAll : ∀ r ∈ requestsOf (step s a).2,
      r.authorization = authOf s.storedToken := by
    cases a with
    | loginAct lr gr hr => simp [ClientAction.isLoginAct] at ha
    | logoutAct => intro r hr; simp [step, handleLogout] at hr
    | uploadAct rsp hr => exact uploadFile_auth s rsp hr
    | askAct rsp hr => exact askQuestion_auth s rsp hr
    | audioAct rsp => exact generateAudio_auth s rsp
    | langsAct rsp => exact fetchLangs_auth s rsp
    | historyAct rsp => exact fetchHistory_auth s rsp
  refine ⟨?_, ?_, ?_, by simp [handleLogout]⟩
  · intro t ht htne r hr
    have h2 := hAll r hr
    rw [h2, ht]
    simp [authOf, htne]
  · intro hn r hr
    have h2 := hAll r hr
    rw [h2, hn]
    simp [authOf]
  · intro gr hr tok htok hu hp
    simp [handleLogin, hu, hp, htok]

/-- Witness for C1: from the logged-in state holding token `abc`, the
langs request goes out with header `Bearer abc`, and after logout the
stored token is gone. -/
theorem c1_requests_carry_stored_bearer_witness :
    (interceptRequest sLoggedIn.storedToken langsRequest).authorization
        = some ("Bearer " ++ "abc") ∧
    (handleLogout sLoggedIn).1.storedToken = none := by
  have h := c1_requests_carry_stored_bearer sLoggedIn
    (ClientAction.langsAct Outcome.err) rfl
  refine ⟨?_, h.2.2.2⟩
  exact h.1 "abc" rfl (by decide) _ (by simp [step, fetchLangs])

/-- C10: the interceptor is uniform, so whenever a non-empty token sits
in durable storage at login time, the POST to `/api/login` itself goes
out with that stored token as bearer header, although the login endpoint
needs no authentication; indeed any request config whatsoever gets that
header. -/
theorem c10_login_post_carries_stale_token (s : ClientState) (t : String)
    (lr : Outcome LoginBody) (gr : Outcome LangsBody)
    (hr : Outcome HistoryBody)
    (hst : s.storedToken = some t) (ht : t ≠ "")
    (hu : s.username ≠ "") (hp : s.password ≠ "") :
    Effect.request
        { method := Method.post, path := "/api/login",
          body := [("username", s.username), ("password", s.password)],
          authorization := some ("Bearer " ++ t) }
      ∈ (handleLogin s lr gr hr).2 ∧
    (∀ c : RequestConfig,
        (interceptRequest s.storedToken c).authorization
          = some ("Bearer " ++ t)) := by
  have hreq : interceptRequest s.storedToken
      (loginRequest s.username s.password) =
      { method := Method.post, path := "/api/login",
        body := [("username", s.username), ("password", s.password)],
        authorization := some ("Bearer " ++ t) } := by
    rw [hst]; simp [interceptRequest, ht, loginRequest]
  constructor
  · rw [← hreq]
    cases lr with
    | ok body =>
      cases body with
      | some tok =>
        by_cases htk : tok = "" <;> simp [handleLogin, hu, hp, htk]
      | none => simp [handleLogin, hu, hp]
    | err => simp [handleLogin, hu, hp]
  · intro c; rw [hst]; simp [interceptRequest, ht]

/-- Witness for C10: logging in from `sStale` (token `old` left in
storage) sends the login POST with header `Bearer old`. -/
theorem c10_login_post_carries_stale_token_witness :
    Effect.request
        { method := Method.post, path := "/api/login",
          body := [("username", "admin"), ("password", "1234")],
          authorization := some ("Bearer " ++ "old") } ∈
      (handleLogin sStale (Outcome.ok (some "abc")) (Outcome.ok none)
        (Outcome.ok none)).2 := by
  have h := c10_login_post_carries_stale_token sStale "old"
    (Outcome.ok (some "abc")) (Outcome.ok none) (Outcome.ok none)
    rfl (by decide) (by decide) (by decide)
  exact h.1

/-- C2 (amended): the login, upload and ask flows validate their required
input — invoked with it empty they issue zero network requests and show a
validation alert — but `generateAudio` performs no such validation: it
always issues exactly one network request, language code empty or not. -/
theorem c2_empty_input_validation (s : ClientState)
    (lr : Outcome LoginBody) (gr : Outcome LangsBody)
    (hr : Outcome HistoryBody) (ur : Outcome Unit) (ar : Outcome String)
    (gar : Outcome Unit) :
    ((s.username = "" ∨ s.password = "") →
        requestsOf (handleLogin s lr gr hr).2 = [] ∧
        Effect.alert "Please enter username & password"
          ∈ (handleLogin s lr gr hr).2) ∧
    (s.file = none →
        requestsOf (uploadFile s ur hr).2 = [] ∧
        Effect.alert "Pick a file first!" ∈ (uploadFile s ur hr).2) ∧
    (s.question = "" →
        requestsOf (askQuestion s ar hr).2 = [] ∧
        Effect.alert "Enter a question" ∈ (askQuestion s ar hr).2) ∧
    (requestsOf (generateAudio s gar).2).length = 1 := by
  refine ⟨?_, ?_, ?_, ?_⟩
  · intro h
    rcases h with h | h <;> simp [handleLogin, h]
  · intro h
    simp [uploadFile, h]
  · intro h
    simp [askQuestion, h]
  · cases gar <;> simp [generateAudio]

/-- Witness for C2 (amended): empty credentials, no file, empty question,
and an audiobook request with the empty language code. -/
theorem c2_empty_input_validation_witness :
    requestsOf (handleLogin initialState Outcome.err (Outcome.ok none)
        (Outcome.ok none)).2 = [] ∧
    requestsOf (uploadFile initialState (Outcome.ok ())
        (Outcome.ok none)).2 = [] ∧
    requestsOf (askQuestion initialState Outcome.err
        (Outcome.ok none)).2 = [] ∧
    (requestsOf (generateAudio sNoLang (Outcome.ok ())).2).length = 1 := by
  have h1 := c2_empty_input_validation initialState Outcome.err
    (Outcome.ok none) (Outcome.ok none) (Outcome.ok ()) Outcome.err
    (Outcome.ok ())
  have h2 := c2_empty_input_validation sNoLang Outcome.err
    (Outcome.ok none) (Outcome.ok none) (Outcome.ok ()) Outcome.err
    (Outcome.ok ())
  exact ⟨(h1.1 (Or.inl rfl)).1, (h1.2.1 rfl).1, (h1.2.2.1 rfl).1, h2.2.2.2⟩

/-- Counterexample to C2 as stated: with the empty language code selected,
`generateAudio` still issues its POST to `/api/audiobook` (carrying the
empty `lang_code`), instead of the zero network requests the claim
demands for an empty required input. -/
theorem c2_counterexample_audio_sends_despite_empty_lang :
    requestsOf (generateAudio sNoLang (Outcome.ok ())).2 =
      [{ method := Method.post, path := "/api/audiobook",
         body := [("lang_code", "")],
         authorization := some ("Bearer " ++ "abc") }] := by
  simp [generateAudio, sNoLang, initialState, interceptRequest,
    audiobookRequest]

@[simp] theorem langsRequestCount_nil : langsRequestCount [] = 0 := rfl

@[simp] theorem langsRequestCount_append (e1 e2 : List Effect) :
    langsRequestCount (e1 ++ e2)
      = langsRequestCount e1 + langsRequestCount e2 := by
  simp [langsRequestCount, List.filter_append]

@[simp] theorem isLangsRequest_alert (m : String) :
    isLangsRequest (Effect.alert m) = false := rfl

@[simp] theorem isLangsRequest_consoleError (m : String) :
    isLangsRequest (Effect.consoleError m) = false := rfl

theorem langsRequestCount_fetchLangs (s : ClientState)
    (resp : Outcome LangsBody) :
    langsRequestCount (fetchLangs s resp).2 = 1 := by
  cases resp <;>
    simp [fetchLangs, langsRequestCount, isLangsRequest, langsRequest,
      List.filter]

theorem langsRequestCount_fetchHistory (s : ClientState)
    (resp : Outcome HistoryBody) :
    langsRequestCount (fetchHistory s resp).2 = 0 := by
  cases resp <;>
    simp [fetchHistory, langsRequestCount, isLangsRequest, historyRequest,
      List.filter]

theorem langsRequestCount_login_effect (stored : Option String)
    (u p : String) (effs : List Effect) :
    langsRequestCount
        (Effect.request (interceptRequest stored (loginRequest u p)) :: effs)
      = langsRequestCount effs := by
  simp [langsRequestCount, isLangsRequest, loginRequest, List.filter]

theorem handleLogin_success_eq (s : ClientState) (tok : String)
    (gr : Outcome LangsBody) (hr : Outcome HistoryBody)
    (hu : s.username ≠ "") (hp : s.password ≠ "") (htok : tok ≠ "") :
    handleLogin s (Outcome.ok (some tok)) gr hr =
      ((fetchHistory (fetchLangs { s with storedToken := some tok, isLoggedIn := true, showLogin := false } gr).1 hr).1,
       [Effect.request (interceptRequest s.storedToken
          (loginRequest s.username s.password))] ++
        (fetchLangs { s with storedToken := some tok, isLoggedIn := true, showLogin := false } gr).2 ++
        (fetchHistory (fetchLangs { s with storedToken := some tok, isLoggedIn := true, showLogin := false } gr).1 hr).2) := by
  simp [handleLogin, hu, hp, htok]

/-- C7 (amended): a successful login from the logged-out state triggers
the language-catalog loader exactly twice — once called directly inside
the login handler and once more by the effect that watches the
authenticated flag — not once. -/
theorem c7_fetchLangs_twice_per_login (s : ClientState) (tok : String)
    (gr gr2 : Outcome LangsBody) (hr hr2 : Outcome HistoryBody)
    (hlo : s.isLoggedIn = false) (hu : s.username ≠ "")
    (hp : s.password ≠ "") (htok : tok ≠ "") :
    langsRequestCount
      (loginFlow s (Outcome.ok (some tok)) gr hr gr2 hr2).2 = 2 := by
  rw [loginFlow, handleLogin_success_eq s tok gr hr hu hp htok]
  simp [hlo, loggedInEffect, langsRequestCount_fetchLangs,
    langsRequestCount_fetchHistory, langsRequestCount_login_effect]

/-- Witness for C7 (amended) at the concrete credentials state. -/
theorem c7_fetchLangs_twice_per_login_witness :
    langsRequestCount (loginFlow sCreds (Outcome.ok (some "abc"))
      (Outcome.ok none) (Outcome.ok none) (Outcome.ok none)
      (Outcome.ok none)).2 = 2 :=
  c7_fetchLangs_twice_per_login sCreds "abc" (Outcome.ok none)
    (Outcome.ok none) (Outcome.ok none) (Outcome.ok none) rfl
    (by decide) (by decide) (by decide)

/-- Counterexample to C7 as stated: after the successful login from
`sCreds`, the count of `/api/langs` requests in the full login flow is 2,
not the 1 the claim asserts. -/
theorem c7_counterexample_fetchLangs_invoked_twice :
    langsRequestCount (loginFlow sCreds (Outcome.ok (some "abc"))
      Outcome.err Outcome.err Outcome.err Outcome.err).2 = 2 ∧
    ¬ langsRequestCount (loginFlow sCreds (Outcome.ok (some "abc"))
      Outcome.err Outcome.err Outcome.err Outcome.err).2 = 1 := by
  constructor <;> decide
